import Mathlib

/-!
Verification development for the process-launch shim layer declared in
Sources/_CShims/include/process_shims.h (fast-path spawner, fork/exec
spawner, wait-status decoder).  The repository ships only the header; the
function bodies live in a C file that is not part of the sources here, so
every behavioural definition below is modelled from the specification
(sections 3, 4.2, 4.3, 7), using the POSIX/glibc wait-status bit layout
that section 4.3 directs the implementation to follow.  The two parameter
lists, by contrast, are transcribed directly from the header.
-/

namespace ProcessShims

/-! ## Wait-status decoder (spec section 4.3)

Modelled from the spec: "Pure functions over a raw status integer, each a
boolean/integer predicate-and-extractor pair ... These must match the
platform's native wait-status bit layout exactly."  We use the glibc
layout: low seven bits hold the terminating signal (zero for a normal
exit), bit 7 is the core-dump flag, bits 8..15 hold the exit code, and a
stopped process has low byte 0x7f.  A raw C status is a machine int; the
decoders only inspect its low sixteen bits, so the status is carried as a
natural number and each bit mask is written as the equivalent mod/div
arithmetic. -/

/-- Modelled from the spec: the C cast to signed char inside the
glibc signaled-predicate, mapping a byte value to the interval
[-128, 127]. -/
def signedChar (v : Nat) : Int :=
  if v % 256 < 128 then (v % 256 : Int) else (v % 256 : Int) - 256

/-- Modelled from the spec: WIFEXITED, i.e. (status & 0x7f) == 0. -/
def _was_process_exited (status : Nat) : Bool :=
  status % 128 == 0

/-- Modelled from the spec: WEXITSTATUS, i.e. (status & 0xff00) >> 8. -/
def _get_exit_code (status : Nat) : Nat :=
  (status / 256) % 256

/-- Modelled from the spec: WIFSIGNALED, i.e.
((signed char)(((status & 0x7f) + 1) >> 1)) > 0, the arithmetic right
shift rendered as floor division by two. -/
def _was_process_signaled (status : Nat) : Bool :=
  0 < Int.fdiv (signedChar (status % 128 + 1)) 2

/-- Modelled from the spec: WTERMSIG, i.e. status & 0x7f. -/
def _get_signal_code (status : Nat) : Nat :=
  status % 128

/-- Modelled from the spec: WIFSTOPPED, i.e. (status & 0xff) == 0x7f. -/
def _was_process_suspended (status : Nat) : Bool :=
  status % 256 == 127

/-! ## Raw-status encodings produced by the kernel's wait primitive -/

/-- Modelled from the spec: the raw status the platform reports for a
child that exited normally with the given code (exit code in bits 8..15,
low seven bits zero). -/
def encodeExitStatus (code : Nat) : Nat :=
  (code % 256) * 256

/-- Modelled from the spec: the raw status the platform reports for a
child terminated by the given signal (signal number in the low seven
bits, bit 7 set when a core was dumped). -/
def encodeSignalStatus (sig : Nat) (core : Bool) : Nat :=
  sig % 128 + (if core then 128 else 0)

/-! ## Ambient-state wrappers for the purity claim

Modelled from the spec: a C call runs against the whole mutable state of
the process; section 4.3 asserts the decoders are pure, so each shim call
is modelled as a function from status and ambient state to result and
ambient state. -/

/-- Modelled from the spec: the ambient mutable process state a C
function could in principle read or write (abstracted as a list of
cells). -/
structure MachineState where
  cells : List Nat

/-- Modelled from the spec: calling a status-decoding shim in ambient
state w returns its pure value and leaves the state untouched. -/
def decoderCall (f : Nat → α) (status : Nat) (w : MachineState) :
    α × MachineState :=
  (f status, w)

/-! ## The two spawner signatures, from the header

Transcribed from src/Sources/_CShims/include/process_shims.h, lines
28-39 (_subprocess_spawn) and 42-55 (_subprocess_fork_exec): one
constructor per formal parameter, in declaration order. -/

/-- Formal parameters that appear in the two spawner prototypes of
process_shims.h. -/
inductive ParamKind where
  | pid
  | execPath
  | fileActions
  | spawnAttrs
  | workingDirectory
  | fileDescriptors
  | args
  | env
  | uid
  | gid
  | processGroupId
  | numberOfSgroups
  | sgroups
  | createSession
  | configurator
deriving DecidableEq, Repr

/-- Parameter list of _subprocess_spawn (header lines 28-39). -/
def spawnParams : List ParamKind :=
  [.pid, .execPath, .fileActions, .spawnAttrs, .args, .env, .uid, .gid,
   .numberOfSgroups, .sgroups, .createSession]

/-- Parameter list of _subprocess_fork_exec (header lines 42-55). -/
def forkExecParams : List ParamKind :=
  [.pid, .execPath, .workingDirectory, .fileDescriptors, .args, .env,
   .uid, .gid, .processGroupId, .numberOfSgroups, .sgroups,
   .createSession, .configurator]

/-- C return types occurring in the header's spawner prototypes. -/
inductive CReturn where
  | int
deriving DecidableEq, Repr

/-- Return type of _subprocess_spawn (header line 28). -/
def spawnReturn : CReturn := .int

/-- Return type of _subprocess_fork_exec (header line 42). -/
def forkExecReturn : CReturn := .int

/-! ## LaunchRequest and the fork/exec spawner (spec sections 3, 4.2)

Modelled from the spec: the body of _subprocess_fork_exec is not among
the sources, so the child branch is modelled as the strictly ordered step
sequence of section 4.2 (a. working directory, b. descriptor
dispositions, c. session/process group, d. supplementary groups then
primary group then user id, e. optional pre-exec hook, f. exec), run
against an oracle saying which steps fail. -/

/-- Modelled from the spec: one entry of the request's ordered list of
file-descriptor dispositions (source fd to target fd, or close). -/
inductive FdDisposition where
  | dup (src tgt : Nat)
  | close (fd : Nat)
deriving DecidableEq, Repr

/-- Modelled from the spec: the argument bundle of section 3, matching
the fields of the fork/exec prototype (the configurator carried as a
presence flag, since only whether caller code runs matters here). -/
structure LaunchRequest where
  execPath : String
  workingDirectory : Option String
  fileDescriptors : List FdDisposition
  args : List String
  env : Option (List String)
  uid : Option Nat
  gid : Option Nat
  processGroupId : Option Nat
  supplementaryGroups : Option (List Nat)
  createSession : Bool
  configurator : Bool
deriving DecidableEq, Repr

/-- Modelled from the spec: one operation the child performs between
fork and exec. -/
inductive ChildStep where
  | chdir (dir : String)
  | fdOp (d : FdDisposition)
  | setsid
  | setpgid (g : Nat)
  | setSGroups (gs : List Nat)
  | setGid (g : Nat)
  | setUid (u : Nat)
  | hook
  | exec (path : String) (args : List String) (env : Option (List String))
deriving DecidableEq, Repr

/-- True exactly on the exec step. -/
def ChildStep.isExec : ChildStep → Bool
  | .exec _ _ _ => true
  | _ => false

/-- True exactly on the three identity-changing steps of section 4.2d. -/
def ChildStep.isIdentityStep : ChildStep → Bool
  | .setSGroups _ => true
  | .setGid _ => true
  | .setUid _ => true
  | _ => false

/-- Steps contributed by an optional request field. -/
def optStep (f : α → ChildStep) : Option α → List ChildStep
  | some x => [f x]
  | none => []

/-- Modelled from the spec (4.2a): working-directory change, when
requested. -/
def chdirSteps (req : LaunchRequest) : List ChildStep :=
  optStep ChildStep.chdir req.workingDirectory

/-- Modelled from the spec (4.2b): descriptor dispositions, strictly in
the order given. -/
def fdSteps (req : LaunchRequest) : List ChildStep :=
  req.fileDescriptors.map ChildStep.fdOp

/-- Modelled from the spec (4.2c): new session if the flag is set, else
an explicit process group if given, else inherit. -/
def sessionSteps (req : LaunchRequest) : List ChildStep :=
  if req.createSession then [ChildStep.setsid]
  else optStep ChildStep.setpgid req.processGroupId

/-- Modelled from the spec (4.2d): supplementary groups, then primary
group, then user id, in that fixed order. -/
def identitySteps (req : LaunchRequest) : List ChildStep :=
  optStep ChildStep.setSGroups req.supplementaryGroups
    ++ optStep ChildStep.setGid req.gid
    ++ optStep ChildStep.setUid req.uid

/-- Modelled from the spec (4.2e): the optional pre-exec hook. -/
def hookSteps (req : LaunchRequest) : List ChildStep :=
  if req.configurator then [ChildStep.hook] else []

/-- Modelled from the spec: everything the child does before the exec
step. -/
def preExecSteps (req : LaunchRequest) : List ChildStep :=
  chdirSteps req ++ fdSteps req ++ sessionSteps req
    ++ identitySteps req ++ hookSteps req

/-- Modelled from the spec: the child branch's full step sequence, the
exec step last. -/
def childSteps (req : LaunchRequest) : List ChildStep :=
  preExecSteps req ++ [ChildStep.exec req.execPath req.args req.env]

/-- Modelled from the spec: the nonzero, distinguishable exit status the
child terminates with when a step before or at exec fails. -/
def childFailureExitCode : Nat := 1

/-- Modelled from the spec: how the child branch ends.  The constructor
returnedToCaller stands for the fork-safety bug the spec rules out:
control flowing back out of the child into the caller's post-fork
logic. -/
inductive ChildOutcome where
  | execed (path : String) (args : List String) (env : Option (List String))
  | exited (code : Nat)
  | returnedToCaller
deriving DecidableEq, Repr

/-- True exactly on the outcome the spec forbids. -/
def ChildOutcome.returnedIntoCaller : ChildOutcome → Bool
  | .returnedToCaller => true
  | _ => false

/-- Modelled from the spec: run the child's steps in order against a
failure oracle.  A failing step terminates the child with the
distinguishable nonzero status; a successful exec replaces the image;
the empty case is the defensive exit (the step list always ends in
exec). -/
def runChild (fails : ChildStep → Bool) : List ChildStep → ChildOutcome
  | [] => .exited childFailureExitCode
  | s :: rest =>
    if fails s then .exited childFailureExitCode
    else
      match s with
      | .exec p a e => .execed p a e
      | _ => runChild fails rest

/-- Modelled from the spec: result of the single process-creating
syscall (fork, or the fast path's atomic spawn): a child identifier, or
a platform errno with no child created. -/
inductive SyscallOutcome where
  | ok (pid : Nat)
  | fail (errno : Nat)
deriving DecidableEq, Repr

/-- Modelled from the spec: how many OS processes the syscall created
(exactly one on success, none on failure). -/
def processesCreated : SyscallOutcome → Nat
  | .ok _ => 1
  | .fail _ => 0

/-- Modelled from the spec: what the fork/exec spawner's call delivers
to the caller: the child identifier (with the child branch's eventual
fate recorded alongside, observable only later via wait), or the fork
syscall's errno. -/
inductive SpawnOutcome where
  | success (pid : Nat) (child : ChildOutcome)
  | failure (errno : Nat)
deriving DecidableEq, Repr

/-- Modelled from the spec (4.2): the fork/exec spawner.  On fork
failure the errno is returned and nothing else happens; on fork success
the parent returns the child identifier at once while the child branch
runs its step sequence. -/
def _subprocess_fork_exec (fork : SyscallOutcome)
    (fails : ChildStep → Bool) (req : LaunchRequest) : SpawnOutcome :=
  match fork with
  | .fail e => .failure e
  | .ok pid => .success pid (runChild fails (childSteps req))

/-- Modelled from the spec: what the fast-path spawner's call delivers
to the caller. -/
inductive FastSpawnReturn where
  | success (pid : Nat)
  | failure (errno : Nat)
deriving DecidableEq, Repr

/-- Modelled from the spec (4.1): the fast-path spawner issues one
atomic spawn syscall; its outcome is the call's outcome. -/
def _subprocess_spawn (r : SyscallOutcome) (req : LaunchRequest) :
    FastSpawnReturn :=
  match r with
  | .ok pid => .success pid
  | .fail e => .failure e

/-! ## Helper lemmas -/

/-- Unpack membership in the steps of an optional field. -/
lemma mem_optStep {f : α → ChildStep} {o : Option α} {s : ChildStep}
    (h : s ∈ optStep f o) : ∃ x, o = some x ∧ s = f x := by
  cases o with
  | none => simp [optStep] at h
  | some x =>
    simp only [optStep, List.mem_singleton] at h
    exact ⟨x, rfl, h⟩

/-- No step before the exec step is itself an exec. -/
lemma preExecSteps_not_exec (req : LaunchRequest) :
    ∀ s ∈ preExecSteps req, s.isExec = false := by
  intro s hs
  simp only [preExecSteps, List.mem_append] at hs
  rcases hs with (((h | h) | h) | h) | h
  · obtain ⟨d, -, rfl⟩ := mem_optStep h
    rfl
  · simp only [fdSteps, List.mem_map] at h
    obtain ⟨d, -, rfl⟩ := h
    rfl
  · unfold sessionSteps at h
    split at h
    · simp only [List.mem_singleton] at h
      subst h
      rfl
    · obtain ⟨g, -, rfl⟩ := mem_optStep h
      rfl
  · simp only [identitySteps, List.mem_append] at h
    rcases h with (h | h) | h <;>
      (obtain ⟨x, -, rfl⟩ := mem_optStep h; rfl)
  · unfold hookSteps at h
    split at h
    · simp only [List.mem_singleton] at h
      subst h
      rfl
    · simp at h

/-- If the final step of the sequence fails and no earlier step is an
exec, the child exits with the failure status. -/
lemma runChild_last_fails (fails : ChildStep → Bool) (ex : ChildStep)
    (hex : fails ex = true) :
    ∀ pre : List ChildStep, (∀ s ∈ pre, s.isExec = false) →
      runChild fails (pre ++ [ex])
        = ChildOutcome.exited childFailureExitCode := by
  intro pre
  induction pre with
  | nil =>
    intro _
    simp [runChild, hex]
  | cons s t ih =>
    intro h
    by_cases hs : fails s = true
    · simp [runChild, hs]
    · have hnot : s.isExec = false := h s (List.mem_cons_self s t)
      have ht : ∀ u ∈ t, u.isExec = false :=
        fun u hu => h u (List.mem_cons_of_mem s hu)
      cases s <;>
        first
          | (simpa [runChild, hs] using ih ht)
          | (simp [ChildStep.isExec] at hnot)

/-- If some step in an exec-free run of steps fails, the child exits
with the failure status before reaching the final step. -/
lemma runChild_pre_fails (fails : ChildStep → Bool) (ex : ChildStep) :
    ∀ pre : List ChildStep, (∀ s ∈ pre, s.isExec = false) →
      (∃ s ∈ pre, fails s = true) →
      runChild fails (pre ++ [ex])
        = ChildOutcome.exited childFailureExitCode := by
  intro pre
  induction pre with
  | nil =>
    rintro - ⟨s, hs, -⟩
    simp at hs
  | cons s t ih =>
    rintro h ⟨u, hu, hfu⟩
    by_cases hs : fails s = true
    · simp [runChild, hs]
    · have hnot : s.isExec = false := h s (List.mem_cons_self s t)
      have ht : ∀ v ∈ t, v.isExec = false :=
        fun v hv => h v (List.mem_cons_of_mem s hv)
      have hut : u ∈ t := by
        rcases List.mem_cons.mp hu with rfl | h2
        · exact absurd hfu hs
        · exact h2
      cases s <;>
        first
          | (simpa [runChild, hs] using ih ht ⟨u, hut, hfu⟩)
          | (simp [ChildStep.isExec] at hnot)

/-- The child branch never produces the forbidden
returned-into-caller outcome, whatever the steps and failures. -/
lemma runChild_never_returns (fails : ChildStep → Bool) :
    ∀ steps : List ChildStep,
      (runChild fails steps).returnedIntoCaller = false := by
  intro steps
  induction steps with
  | nil => rfl
  | cons s t ih =>
    by_cases hs : fails s = true
    · simp [runChild, hs, ChildOutcome.returnedIntoCaller]
    · cases s <;>
        first
          | (simpa [runChild, hs] using ih)
          | (simp [runChild, hs, ChildOutcome.returnedIntoCaller])

/-- Filtering the steps of an optional field keeps them all when the
predicate holds on the constructor. -/
lemma filter_optStep_pos (p : ChildStep → Bool) (f : α → ChildStep)
    (hp : ∀ x, p (f x) = true) (o : Option α) :
    (optStep f o).filter p = optStep f o := by
  cases o <;> simp [optStep, hp]

/-- Filtering the steps of an optional field removes them all when the
predicate fails on the constructor. -/
lemma filter_optStep_neg (p : ChildStep → Bool) (f : α → ChildStep)
    (hp : ∀ x, p (f x) = false) (o : Option α) :
    (optStep f o).filter p = [] := by
  cases o <;> simp [optStep, hp]

/-- Descriptor steps contribute no identity step. -/
lemma filter_identity_fdSteps (req : LaunchRequest) :
    (fdSteps req).filter ChildStep.isIdentityStep = [] := by
  unfold fdSteps
  induction req.fileDescriptors with
  | nil => rfl
  | cons d t ih => simpa [ChildStep.isIdentityStep] using ih

/-- Session steps contribute no identity step. -/
lemma filter_identity_sessionSteps (req : LaunchRequest) :
    (sessionSteps req).filter ChildStep.isIdentityStep = [] := by
  unfold sessionSteps
  split
  · rfl
  · exact filter_optStep_neg _ _ (fun g => rfl) req.processGroupId

/-- Hook steps contribute no identity step. -/
lemma filter_identity_hookSteps (req : LaunchRequest) :
    (hookSteps req).filter ChildStep.isIdentityStep = [] := by
  unfold hookSteps
  split <;> rfl

/-- The identity segment survives the identity filter whole. -/
lemma filter_identity_identitySteps (req : LaunchRequest) :
    (identitySteps req).filter ChildStep.isIdentityStep
      = identitySteps req := by
  unfold identitySteps
  rw [List.filter_append, List.filter_append]
  rw [filter_optStep_pos _ _ (fun x => rfl),
    filter_optStep_pos _ _ (fun x => rfl),
    filter_optStep_pos _ _ (fun x => rfl)]

/-- Projected onto identity steps, the child's sequence is exactly the
supplementary-groups, primary-group, user-id segment, in that order. -/
lemma filter_identity_childSteps (req : LaunchRequest) :
    (childSteps req).filter ChildStep.isIdentityStep
      = identitySteps req := by
  unfold childSteps preExecSteps chdirSteps
  simp only [List.filter_append]
  rw [filter_optStep_neg _ _ (fun d => rfl) req.workingDirectory,
    filter_identity_fdSteps, filter_identity_sessionSteps,
    filter_identity_identitySteps, filter_identity_hookSteps]
  simp [ChildStep.isIdentityStep]

/-- Each decoder predicate only reads the low eight bits of the raw
status. -/
lemma _was_process_exited_mod (s : Nat) :
    _was_process_exited s = _was_process_exited (s % 256) := by
  unfold _was_process_exited
  rw [Nat.mod_mod_of_dvd s (by norm_num : (128 : Nat) ∣ 256)]

lemma _was_process_signaled_mod (s : Nat) :
    _was_process_signaled s = _was_process_signaled (s % 256) := by
  unfold _was_process_signaled
  rw [Nat.mod_mod_of_dvd s (by norm_num : (128 : Nat) ∣ 256)]

lemma _was_process_suspended_mod (s : Nat) :
    _was_process_suspended s = _was_process_suspended (s % 256) := by
  unfold _was_process_suspended
  rw [Nat.mod_mod_of_dvd s (dvd_refl 256)]

end ProcessShims

open ProcessShims

/-- C1.  A raw status encoding a normal exit with code N, for each N in
the sampled set, decodes as exited with that exit code. -/
theorem exit_status_decodes_exited (n : Nat)
    (h : n = 0 ∨ n = 1 ∨ n = 2 ∨ n = 255) :
    _was_process_exited (encodeExitStatus n) = true ∧
      _get_exit_code (encodeExitStatus n) = n := by
  rcases h with rfl | rfl | rfl | rfl <;> exact ⟨by decide, by decide⟩

/-- Witness for C1 at N = 255. -/
theorem exit_status_decodes_exited_witness :
    _was_process_exited (encodeExitStatus 255) = true ∧
      _get_exit_code (encodeExitStatus 255) = 255 :=
  exit_status_decodes_exited 255 (Or.inr (Or.inr (Or.inr rfl)))

set_option maxRecDepth 8192 in
/-- C2.  For every raw wait-status integer, at most one of the three
decoded outcomes (exited, signaled, suspended) holds. -/
theorem decoded_outcomes_mutually_exclusive (s : Nat) :
    (_was_process_exited s).toNat + (_was_process_signaled s).toNat
      + (_was_process_suspended s).toNat ≤ 1 := by
  have key : ∀ t, t < 256 →
      (_was_process_exited t).toNat + (_was_process_signaled t).toNat
        + (_was_process_suspended t).toNat ≤ 1 := by decide
  rw [_was_process_exited_mod, _was_process_signaled_mod,
    _was_process_suspended_mod]
  exact key (s % 256) (Nat.mod_lt s (by norm_num))

/-- C7.  A raw status encoding termination by signal 9 (with or without
the core-dump flag) decodes as signaled with signal code 9 and not as
exited. -/
theorem signal_nine_decodes_signaled (core : Bool) :
    _was_process_signaled (encodeSignalStatus 9 core) = true ∧
      _get_signal_code (encodeSignalStatus 9 core) = 9 ∧
      _was_process_exited (encodeSignalStatus 9 core) = false := by
  cases core <;> exact ⟨by decide, by decide, by decide⟩

/-- C8.  The decoder is not exhaustive: some raw status (255, the glibc
continued/overflow corner) satisfies none of the three predicates. -/
theorem decoder_not_exhaustive :
    ∃ s : Nat, _was_process_exited s = false ∧
      _was_process_signaled s = false ∧
      _was_process_suspended s = false :=
  ⟨255, by decide, by decide, by decide⟩

/-- C9.  Each of the five status-decoding shims, run as a call against
the ambient machine state, returns a value depending only on the status
argument and leaves the state exactly as it was. -/
theorem decoders_pure_deterministic (s : Nat) (w w' : MachineState) :
    ((decoderCall _was_process_exited s w).1
        = (decoderCall _was_process_exited s w').1 ∧
      (decoderCall _was_process_exited s w).2 = w) ∧
    ((decoderCall _get_exit_code s w).1
        = (decoderCall _get_exit_code s w').1 ∧
      (decoderCall _get_exit_code s w).2 = w) ∧
    ((decoderCall _was_process_signaled s w).1
        = (decoderCall _was_process_signaled s w').1 ∧
      (decoderCall _was_process_signaled s w).2 = w) ∧
    ((decoderCall _get_signal_code s w).1
        = (decoderCall _get_signal_code s w').1 ∧
      (decoderCall _get_signal_code s w).2 = w) ∧
    ((decoderCall _was_process_suspended s w).1
        = (decoderCall _was_process_suspended s w').1 ∧
      (decoderCall _was_process_suspended s w).2 = w) :=
  ⟨⟨rfl, rfl⟩, ⟨rfl, rfl⟩, ⟨rfl, rfl⟩, ⟨rfl, rfl⟩, ⟨rfl, rfl⟩⟩

/-- Counterexample to C5 as stated: the two spawner prototypes do not
accept the same fields — the fork/exec spawner takes a working-directory
parameter, the fast-path spawner does not. -/
theorem spawner_params_differ :
    forkExecParams.contains ParamKind.workingDirectory = true ∧
      spawnParams.contains ParamKind.workingDirectory = false := by
  constructor <;> decide

/-- C5 (amended).  The two spawners have identical outputs (an int
result with the child id through a pid out-parameter) and share the core
request fields, but their inputs differ: only the fork/exec spawner
takes a working directory, a raw descriptor array, a process-group id
and a configurator, while only the fast-path spawner takes posix
file-actions and spawn-attribute objects. -/
theorem spawner_contracts_compared :
    spawnReturn = forkExecReturn ∧
    spawnParams.contains ParamKind.pid = true ∧
    forkExecParams.contains ParamKind.pid = true ∧
    ([ParamKind.execPath, ParamKind.args, ParamKind.env, ParamKind.uid,
        ParamKind.gid, ParamKind.numberOfSgroups, ParamKind.sgroups,
        ParamKind.createSession].all
      (fun p => spawnParams.contains p && forkExecParams.contains p)
      = true) ∧
    ([ParamKind.workingDirectory, ParamKind.fileDescriptors,
        ParamKind.processGroupId, ParamKind.configurator].all
      (fun p => forkExecParams.contains p && !(spawnParams.contains p))
      = true) ∧
    ([ParamKind.fileActions, ParamKind.spawnAttrs].all
      (fun p => spawnParams.contains p && !(forkExecParams.contains p))
      = true) := by
  refine ⟨rfl, by decide, by decide, by decide, by decide, by decide⟩

/-- Concrete request with every optional field populated, used by the
witnesses. -/
def sampleRequest : LaunchRequest :=
  { execPath := "/bin/echo"
    workingDirectory := some "/tmp"
    fileDescriptors := [.dup 5 1, .close 2]
    args := ["echo", "hi"]
    env := some ["PATH=/bin"]
    uid := some 1000
    gid := some 100
    processGroupId := some 7
    supplementaryGroups := some [10, 20]
    createSession := false
    configurator := true }

/-- C3.  In the child branch the identity changes occur exactly as the
segment supplementary-groups, then primary group, then user id (so the
user id is never changed before a group change), and a failure of any
identity step terminates the child with the nonzero failure status. -/
theorem identity_changes_ordered_and_fatal (req : LaunchRequest)
    (fails : ChildStep → Bool) :
    (childSteps req).filter ChildStep.isIdentityStep
      = optStep ChildStep.setSGroups req.supplementaryGroups
        ++ optStep ChildStep.setGid req.gid
        ++ optStep ChildStep.setUid req.uid
    ∧ (∀ s ∈ childSteps req, s.isIdentityStep = true → fails s = true →
        runChild fails (childSteps req)
          = ChildOutcome.exited childFailureExitCode)
    ∧ childFailureExitCode ≠ 0 := by
  refine ⟨filter_identity_childSteps req, ?_, by decide⟩
  intro s hs hid hf
  have hpre : s ∈ preExecSteps req := by
    rcases List.mem_append.mp hs with h | h
    · exact h
    · simp only [List.mem_singleton] at h
      subst h
      simp [ChildStep.isIdentityStep] at hid
  exact runChild_pre_fails fails _ (preExecSteps req)
    (preExecSteps_not_exec req) ⟨s, hpre, hf⟩

/-- Witness for C3: in the sample request, failing the primary-group
step makes the child exit with the failure status. -/
theorem identity_changes_ordered_and_fatal_witness :
    runChild ChildStep.isIdentityStep (childSteps sampleRequest)
      = ChildOutcome.exited childFailureExitCode :=
  (identity_changes_ordered_and_fatal sampleRequest
      ChildStep.isIdentityStep).2.1
    (ChildStep.setGid 100) (by decide) (by decide) (by decide)

/-- C4.  Both spawners are all-or-nothing at the parent boundary: a
success return carries the identifier of the one process the syscall
created, and a failure return carries the syscall's errno with no
process created. -/
theorem spawn_all_or_nothing (r : SyscallOutcome)
    (fails : ChildStep → Bool) (req : LaunchRequest) :
    (∀ pid child,
      _subprocess_fork_exec r fails req = SpawnOutcome.success pid child →
        r = SyscallOutcome.ok pid ∧ processesCreated r = 1)
    ∧ (∀ e, _subprocess_fork_exec r fails req = SpawnOutcome.failure e →
        r = SyscallOutcome.fail e ∧ processesCreated r = 0)
    ∧ (∀ pid, _subprocess_spawn r req = FastSpawnReturn.success pid →
        r = SyscallOutcome.ok pid ∧ processesCreated r = 1)
    ∧ (∀ e, _subprocess_spawn r req = FastSpawnReturn.failure e →
        r = SyscallOutcome.fail e ∧ processesCreated r = 0) := by
  cases r <;>
    refine ⟨?_, ?_, ?_, ?_⟩ <;>
      intro a <;>
        simp_all [_subprocess_fork_exec, _subprocess_spawn,
          processesCreated]

/-- Witness for C4: a successful fork on the sample request yields the
forked pid while exactly one process was created. -/
theorem spawn_all_or_nothing_witness :
    SyscallOutcome.ok 42 = SyscallOutcome.ok 42 ∧
      processesCreated (SyscallOutcome.ok 42) = 1 :=
  (spawn_all_or_nothing (SyscallOutcome.ok 42) (fun _ => false)
      sampleRequest).1 42
    (runChild (fun _ => false) (childSteps sampleRequest)) rfl

/-- C6.  If the exec step fails the child exits with the nonzero
failure status while the parent's spawn call still returns the child
identifier; the child never returns into the caller's post-fork logic,
and a failure return of the spawn call can only come from the fork
syscall itself. -/
theorem exec_failure_fatal_to_child (fails : ChildStep → Bool)
    (req : LaunchRequest) (pid : Nat) :
    (fails (ChildStep.exec req.execPath req.args req.env) = true →
        runChild fails (childSteps req)
          = ChildOutcome.exited childFailureExitCode
        ∧ childFailureExitCode ≠ 0
        ∧ _subprocess_fork_exec (SyscallOutcome.ok pid) fails req
            = SpawnOutcome.success pid
                (ChildOutcome.exited childFailureExitCode))
    ∧ (∀ steps, (runChild fails steps).returnedIntoCaller = false)
    ∧ (∀ r e, _subprocess_fork_exec r fails req = SpawnOutcome.failure e →
        r = SyscallOutcome.fail e) := by
  refine ⟨?_, runChild_never_returns fails, ?_⟩
  · intro hex
    have h : runChild fails (childSteps req)
        = ChildOutcome.exited childFailureExitCode :=
      runChild_last_fails fails _ hex (preExecSteps req)
        (preExecSteps_not_exec req)
    exact ⟨h, by decide, by simp [_subprocess_fork_exec, h]⟩
  · intro r e h
    cases r with
    | ok p => simp [_subprocess_fork_exec] at h
    | fail e2 =>
      simp only [_subprocess_fork_exec, SpawnOutcome.failure.injEq] at h
      rw [h]

/-- Witness for C6: with every exec step failing, the sample request's
child exits with the failure status and the parent still gets pid 7. -/
theorem exec_failure_fatal_to_child_witness :
    runChild ChildStep.isExec (childSteps sampleRequest)
      = ChildOutcome.exited childFailureExitCode
    ∧ childFailureExitCode ≠ 0
    ∧ _subprocess_fork_exec (SyscallOutcome.ok 7) ChildStep.isExec
        sampleRequest
      = SpawnOutcome.success 7
          (ChildOutcome.exited childFailureExitCode) :=
  (exec_failure_fatal_to_child ChildStep.isExec sampleRequest 7).1
    (by decide)

/-- C10.  Only the fork/exec prototype takes the pre-exec configurator
callback; the fast-path prototype has no such parameter, so no
caller-supplied hook can be passed on the fast path. -/
theorem only_fork_exec_takes_configurator :
    forkExecParams.contains ParamKind.configurator = true ∧
      spawnParams.contains ParamKind.configurator = false := by
  constructor <;> decide
